import Mathlib

/-!
Verification of the game-session core of `src/main.py` (HandGestureGame).

The Python class is shallowly embedded: each method of the class that the
specification's claims mention becomes a Lean definition over an explicit
`GameState`, and the body of the `run` main loop becomes the pure function
`frameStep`, a composition of the four per-frame phases in source order:
bounds reconciliation (lines 304-323), the game-logic block (lines 328-377),
the UI-drawing time recomputation (lines 111-124 via line 380), and keyboard
handling (lines 385-399).  Wall-clock instants (`time.time()`) are passed in
as integer clock ticks — the source only ever adds, subtracts, compares and
takes `max` of time values, so integer instants embed every operation
losslessly; `random.randint` draws are driven by explicit seed inputs; the
high-score file is an explicit `StoreFile` value.
-/

/-- Game mode: `'normal'` or `'countdown'` (line 34 of `src/main.py`). -/
inductive Mode where
  | normal
  | countdown
deriving DecidableEq, Repr

/-- A pixel position, as produced by `int(...)` coordinates in the source. -/
abbrev Pt := Int × Int

/-- Observable states of the `highscore.json` file: absent, present but
unreadable/unparseable, or valid JSON optionally holding a `high_score`
value (modelled as an integer). -/
inductive StoreFile where
  | absent
  | unreadable
  | json (hs : Option Int)
deriving DecidableEq, Repr

/-- Embedding of `load_high_score` (lines 64-73): the `try/except` returns 0
on a missing file or on any read/parse failure, and `data.get('high_score', 0)`
returns the stored value (0 when the key is missing) otherwise. -/
def load_high_score : StoreFile → Int
  | StoreFile.absent => 0
  | StoreFile.unreadable => 0
  | StoreFile.json none => 0
  | StoreFile.json (some v) => v

/-- The raw file write inside `save_high_score`: succeeds or fails depending
on the environment (modelled by the `writeOk` flag). -/
def writeScoreFile (hs : Int) (writeOk : Bool) : Except Unit StoreFile :=
  if writeOk then Except.ok (StoreFile.json (some hs)) else Except.error ()

/-- Embedding of `save_high_score` (lines 75-81): the `try/except: pass`
swallows a write failure, leaving the old file state; no error escapes. -/
def save_high_score (hs : Int) (writeOk : Bool) (old : StoreFile) : StoreFile :=
  match writeScoreFile hs writeOk with
  | Except.ok f => f
  | Except.error _ => old

/-- Embedding of Python's `random.randint(lo, hi)`: raises `ValueError` when
`hi < lo` (modelled as `Except.error`), otherwise returns a value of the
inclusive range `[lo, hi]`, selected here by the explicit seed `s`
(`lo + s mod (hi - lo + 1)` ranges over exactly `[lo, hi]`). -/
def randint (lo hi s : Int) : Except Unit Int :=
  if hi < lo then Except.error () else Except.ok (lo + s % (hi + 1 - lo))

/-- Embedding of `generate_random_target` (lines 83-88):
`margin = 50`, `x = randint(margin, max(margin + 10, window_width - margin))`
and likewise for `y` against `window_height`. -/
def generate_random_target (w h sx sy : Int) : Except Unit Pt := do
  let x ← randint 50 (max (50 + 10) (w - 50)) sx
  let y ← randint 50 (max (50 + 10) (h - 50)) sy
  pure (x, y)

/-- The (always succeeding) value of `generate_random_target`; used by the
state model, justified by `generate_random_target_eq_ok`. -/
def genTarget (w h sx sy : Int) : Pt :=
  (50 + sx % (max (50 + 10) (w - 50) + 1 - 50),
   50 + sy % (max (50 + 10) (h - 50) + 1 - 50))

lemma generate_random_target_eq_ok (w h sx sy : Int) :
    generate_random_target w h sx sy = Except.ok (genTarget w h sx sy) := by
  have hw : ¬ max (50 + 10) (w - 50) < (50 : Int) :=
    not_lt.mpr (le_trans (by norm_num) (le_max_left _ _))
  have hh : ¬ max (50 + 10) (h - 50) < (50 : Int) :=
    not_lt.mpr (le_trans (by norm_num) (le_max_left _ _))
  simp [generate_random_target, randint, hw, hh, genTarget, Bind.bind, Except.bind, Pure.pure, Except.pure]

/-- Embedding of `calculate_distance` squared (lines 90-92).  The source
compares `sqrt(dx^2 + dy^2) < 30`; since both sides are non-negative and 30
is exact, this holds iff `dx^2 + dy^2 < 900`, which is what the executable
embedding uses (`hitTest_iff_euclid` proves the equivalence). -/
def sqDist (p q : Pt) : Int :=
  (p.1 - q.1) ^ 2 + (p.2 - q.2) ^ 2

/-- The collision test of line 101: Euclidean distance strictly below
`collision_distance = 30`. -/
def hitTest (p t : Pt) : Bool :=
  sqDist p t < 900

/-- The `for i, target_pos in enumerate(self.targets)` scan of
`check_collision` (lines 99-103): first index whose target is hit. -/
def firstHit (p : Pt) : List Pt → Option Nat
  | [] => none
  | t :: ts => if hitTest p t then some 0 else (firstHit p ts).map (fun i => i + 1)

/-- Embedding of `check_collision` (lines 94-103): `None` when no finger is
tracked, else the first target index within collision distance. -/
def check_collision (finger : Option Pt) (targets : List Pt) : Option Nat :=
  match finger with
  | none => none
  | some p => firstHit p targets

/-- The claim's notion of collision: real Euclidean distance strictly less
than 30 pixels. -/
def EuclidLt30 (p q : Pt) : Prop :=
  Real.sqrt (((p.1 - q.1 : Int) : ℝ) ^ 2 + ((p.2 - q.2 : Int) : ℝ) ^ 2) < 30

lemma hitTest_iff_euclid (p q : Pt) : hitTest p q = true ↔ EuclidLt30 p q := by
  have h30 : (0 : ℝ) < 30 := by norm_num
  have := Real.sqrt_lt' h30 (x := (((p.1 - q.1 : Int) : ℝ) ^ 2 + ((p.2 - q.2 : Int) : ℝ) ^ 2))
  unfold hitTest EuclidLt30
  rw [this]
  have hcast : (((p.1 - q.1 : Int) : ℝ) ^ 2 + ((p.2 - q.2 : Int) : ℝ) ^ 2)
      = ((sqDist p q : Int) : ℝ) := by
    unfold sqDist
    push_cast
    ring
  rw [hcast]
  constructor
  · intro h
    have : ((sqDist p q : Int) : ℝ) < ((900 : Int) : ℝ) := by exact_mod_cast decide_eq_true_eq.mp h
    norm_num at this ⊢
    exact_mod_cast this
  · intro h
    have : sqDist p q < (900 : Int) := by
      have h9 : ((30 : ℝ) ^ 2) = ((900 : Int) : ℝ) := by norm_num
      rw [h9] at h
      exact_mod_cast h
    exact decide_eq_true_eq.mpr (by exact_mod_cast this)

/-- Keyboard inputs the main loop reacts to (lines 386-399): `q` and space. -/
inductive GameKey where
  | qKey
  | space
deriving DecidableEq, Repr

/-- The mutable fields of `HandGestureGame` that the game loop touches.
`persistCalls` counts the `save_high_score()` invocations made inside the
loop (line 335), so that persistence events are observable. -/
structure GameState where
  mode : Mode
  score : Nat
  highScore : Int
  startTime : Int
  paused : Bool
  game_over : Bool
  countdown_duration : Int
  time_left : Int
  targets : List Pt
  window_width : Int
  window_height : Int
  finger_pos : Option Pt
  persistCalls : Nat
deriving DecidableEq, Repr

/-- Per-frame inputs fed by the environment: the window rectangle query
(`None` models the swallowed `cv2.getWindowImageRect` exception), the
detected fingertip position, random seeds for target regeneration, the
wall-clock instants sampled by `draw_ui` and by the key handler, and the
pressed key. -/
structure FrameInput where
  rect : Option (Int × Int)
  detection : Option Pt
  reseed : Nat → Int × Int
  hitSeed : Int × Int
  nowDraw : Int
  key : Option GameKey
  nowKey : Int

/-- The regeneration test and replacement of lines 318-321 for one target:
a target with `x > window_width - margin` or `y > window_height - margin`
is regenerated, others are kept. -/
def reconcileTarget (w h : Int) (seed : Int × Int) (t : Pt) : Pt :=
  if w - 50 < t.1 ∨ h - 50 < t.2 then genTarget w h seed.1 seed.2 else t

/-- The indexed `for i in range(len(self.targets))` loop of lines 318-321. -/
def reconcileTargets (w h : Int) (reseed : Nat → Int × Int) : Nat → List Pt → List Pt
  | _, [] => []
  | i, t :: ts => reconcileTarget w h (reseed i) t :: reconcileTargets w h reseed (i + 1) ts

/-- Embedding of the window-size reconciliation of lines 304-323: when the
window rectangle is readable and positive and differs from the stored size,
the stored size is updated and out-of-range targets are regenerated. -/
def reconcileBounds (rect : Option (Int × Int)) (reseed : Nat → Int × Int)
    (s : GameState) : GameState :=
  match rect with
  | none => s
  | some wh =>
    if 0 < wh.1 ∧ 0 < wh.2 then
      if wh.1 = s.window_width ∧ wh.2 = s.window_height then s
      else
        { s with window_width := wh.1, window_height := wh.2,
                 targets := reconcileTargets wh.1 wh.2 reseed 0 s.targets }
    else s

/-- Embedding of the countdown-expiry check of lines 330-336, executed at
the top of the running-only block: sets `game_over`, and updates plus
persists the high score when `score > high_score`. -/
def expiryStep (s : GameState) : GameState :=
  if s.mode = Mode.countdown ∧ s.time_left ≤ 0 then
    if (s.score : Int) > s.highScore then
      { s with game_over := true, highScore := (s.score : Int),
               persistCalls := s.persistCalls + 1 }
    else { s with game_over := true }
  else s

/-- Embedding of the collision block of lines 367-377: on a hit, increment
the score, respawn the hit target against the current window size, and sync
the in-memory high score. -/
def collisionStep (hitSeed : Int × Int) (s : GameState) : GameState :=
  match check_collision s.finger_pos s.targets with
  | some i =>
    let s1 := { s with score := s.score + 1,
                       targets := s.targets.set i
                         (genTarget s.window_width s.window_height hitSeed.1 hitSeed.2) }
    if (s1.score : Int) > s1.highScore then { s1 with highScore := (s1.score : Int) } else s1
  | none => s

/-- Embedding of the running-only game-logic block of lines 328-377: guarded
by `not paused and not game_over` evaluated at block entry, it performs the
expiry check, resets `finger_pos` to the current detection (lines 344-365),
and resolves collisions.  Note the block keeps executing after the expiry
check sets `game_over`, exactly as in the source (there is no early exit). -/
def logicPhase (detection : Option Pt) (hitSeed : Int × Int) (s : GameState) : GameState :=
  if s.paused = false ∧ s.game_over = false then
    collisionStep hitSeed { expiryStep s with finger_pos := detection }
  else s

/-- Embedding of the time recomputation in `draw_ui` (lines 113-117), which
runs every frame (line 380), paused or not: in Countdown mode `time_left`
becomes `max(0, countdown_duration - (now - start_time))`. -/
def drawPhase (nowDraw : Int) (s : GameState) : GameState :=
  if s.mode = Mode.countdown then
    { s with time_left := max 0 (s.countdown_duration - (nowDraw - s.startTime)) }
  else s

/-- Embedding of the keyboard handler (lines 386-399): space toggles pause
unless the game is over; on resume in Countdown mode the start time is
advanced by `now - start_time - (countdown_duration - time_left)`. -/
def keyPhase (key : Option GameKey) (nowKey : Int) (s : GameState) : GameState :=
  match key with
  | some GameKey.space =>
    if s.game_over = false then
      if s.paused = false then { s with paused := true }
      else
        let s1 := { s with paused := false }
        if s.mode = Mode.countdown then
          { s1 with startTime :=
              s.startTime + (nowKey - s.startTime - (s.countdown_duration - s.time_left)) }
        else s1
    else s
  | _ => s

/-- One iteration of the `while` loop of `run` (lines 295-399), phases in
source order. -/
def frameStep (inp : FrameInput) (s : GameState) : GameState :=
  keyPhase inp.key inp.nowKey
    (drawPhase inp.nowDraw
      (logicPhase inp.detection inp.hitSeed
        (reconcileBounds inp.rect inp.reseed s)))

/-- The initial target list built by the loop of lines 53-54. -/
def initTargets (w h : Int) (seeds : Nat → Int × Int) (n : Nat) : List Pt :=
  (List.range n).map (fun i => genTarget w h (seeds i).1 (seeds i).2)

/-- Embedding of `__init__` (lines 11-58): score 0, high score loaded from
the store file, start time recorded, not paused, not over, a 60-second
countdown budget with `time_left` initialised to the full budget, and
`num_targets` freshly generated targets against the camera dimensions. -/
def initState (mode : Mode) (numTargets : Nat) (file : StoreFile)
    (camW camH : Int) (t0 : Int) (seeds : Nat → Int × Int) : GameState :=
  { mode := mode
    score := 0
    highScore := load_high_score file
    startTime := t0
    paused := false
    game_over := false
    countdown_duration := 60
    time_left := 60
    targets := initTargets camW camH seeds numTargets
    window_width := camW
    window_height := camH
    finger_pos := none
    persistCalls := 0 }

/-- States reachable from a given state by running whole frames. -/
inductive ReachableFrom (s0 : GameState) : GameState → Prop
  | base : ReachableFrom s0 s0
  | step (inp : FrameInput) (s : GameState) :
      ReachableFrom s0 s → ReachableFrom s0 (frameStep inp s)

/-- The remaining-time formula of `draw_ui` (lines 115-116) as a function of
an arbitrary clock instant. -/
def remainingAt (now : Int) (s : GameState) : Int :=
  max 0 (s.countdown_duration - (now - s.startTime))

/-- The elapsed-time formula of `draw_ui` for Normal mode (line 121). -/
def elapsedAt (now : Int) (s : GameState) : Int :=
  now - s.startTime

section PhaseLemmas

variable (rect : Option (Int × Int)) (reseed : Nat → Int × Int) (detection : Option Pt)
variable (hitSeed : Int × Int) (key : Option GameKey) (t : Int) (s : GameState)

@[simp] lemma reconcileBounds_score : (reconcileBounds rect reseed s).score = s.score := by
  unfold reconcileBounds; cases rect <;> simp <;> split_ifs <;> rfl

@[simp] lemma reconcileBounds_highScore :
    (reconcileBounds rect reseed s).highScore = s.highScore := by
  unfold reconcileBounds; cases rect <;> simp <;> split_ifs <;> rfl

@[simp] lemma reconcileBounds_paused : (reconcileBounds rect reseed s).paused = s.paused := by
  unfold reconcileBounds; cases rect <;> simp <;> split_ifs <;> rfl

@[simp] lemma reconcileBounds_game_over :
    (reconcileBounds rect reseed s).game_over = s.game_over := by
  unfold reconcileBounds; cases rect <;> simp <;> split_ifs <;> rfl

@[simp] lemma reconcileBounds_mode : (reconcileBounds rect reseed s).mode = s.mode := by
  unfold reconcileBounds; cases rect <;> simp <;> split_ifs <;> rfl

@[simp] lemma reconcileBounds_startTime :
    (reconcileBounds rect reseed s).startTime = s.startTime := by
  unfold reconcileBounds; cases rect <;> simp <;> split_ifs <;> rfl

@[simp] lemma reconcileBounds_time_left :
    (reconcileBounds rect reseed s).time_left = s.time_left := by
  unfold reconcileBounds; cases rect <;> simp <;> split_ifs <;> rfl

@[simp] lemma reconcileBounds_duration :
    (reconcileBounds rect reseed s).countdown_duration = s.countdown_duration := by
  unfold reconcileBounds; cases rect <;> simp <;> split_ifs <;> rfl

@[simp] lemma reconcileBounds_finger :
    (reconcileBounds rect reseed s).finger_pos = s.finger_pos := by
  unfold reconcileBounds; cases rect <;> simp <;> split_ifs <;> rfl

@[simp] lemma reconcileBounds_persistCalls :
    (reconcileBounds rect reseed s).persistCalls = s.persistCalls := by
  unfold reconcileBounds; cases rect <;> simp <;> split_ifs <;> rfl

@[simp] lemma reconcileBounds_none : reconcileBounds none reseed s = s := rfl

@[simp] lemma expiryStep_score : (expiryStep s).score = s.score := by
  unfold expiryStep; split_ifs <;> rfl

@[simp] lemma expiryStep_targets : (expiryStep s).targets = s.targets := by
  unfold expiryStep; split_ifs <;> rfl

@[simp] lemma expiryStep_paused : (expiryStep s).paused = s.paused := by
  unfold expiryStep; split_ifs <;> rfl

@[simp] lemma expiryStep_mode : (expiryStep s).mode = s.mode := by
  unfold expiryStep; split_ifs <;> rfl

@[simp] lemma expiryStep_startTime : (expiryStep s).startTime = s.startTime := by
  unfold expiryStep; split_ifs <;> rfl

@[simp] lemma expiryStep_time_left : (expiryStep s).time_left = s.time_left := by
  unfold expiryStep; split_ifs <;> rfl

@[simp] lemma expiryStep_duration :
    (expiryStep s).countdown_duration = s.countdown_duration := by
  unfold expiryStep; split_ifs <;> rfl

@[simp] lemma expiryStep_window_width :
    (expiryStep s).window_width = s.window_width := by
  unfold expiryStep; split_ifs <;> rfl

@[simp] lemma expiryStep_window_height :
    (expiryStep s).window_height = s.window_height := by
  unfold expiryStep; split_ifs <;> rfl

lemma expiryStep_game_over :
    (expiryStep s).game_over =
      (s.game_over || (s.mode = Mode.countdown ∧ s.time_left ≤ 0 : Bool)) := by
  unfold expiryStep
  split_ifs with h1 h2 <;> simp [h1] at * <;> simp_all

lemma expiryStep_persistCalls :
    (expiryStep s).persistCalls =
      (if s.mode = Mode.countdown ∧ s.time_left ≤ 0 ∧ (s.score : Int) > s.highScore
       then s.persistCalls + 1 else s.persistCalls) := by
  unfold expiryStep
  split_ifs <;> simp_all <;> tauto

lemma expiryStep_highScore :
    (expiryStep s).highScore =
      (if s.mode = Mode.countdown ∧ s.time_left ≤ 0 ∧ (s.score : Int) > s.highScore
       then (s.score : Int) else s.highScore) := by
  unfold expiryStep
  split_ifs <;> simp_all <;> tauto

@[simp] lemma collisionStep_paused : (collisionStep hitSeed s).paused = s.paused := by
  unfold collisionStep
  cases check_collision s.finger_pos s.targets <;> simp <;> split_ifs <;> rfl

@[simp] lemma collisionStep_game_over :
    (collisionStep hitSeed s).game_over = s.game_over := by
  unfold collisionStep
  cases check_collision s.finger_pos s.targets <;> simp <;> split_ifs <;> rfl

@[simp] lemma collisionStep_mode : (collisionStep hitSeed s).mode = s.mode := by
  unfold collisionStep
  cases check_collision s.finger_pos s.targets <;> simp <;> split_ifs <;> rfl

@[simp] lemma collisionStep_startTime :
    (collisionStep hitSeed s).startTime = s.startTime := by
  unfold collisionStep
  cases check_collision s.finger_pos s.targets <;> simp <;> split_ifs <;> rfl

@[simp] lemma collisionStep_time_left :
    (collisionStep hitSeed s).time_left = s.time_left := by
  unfold collisionStep
  cases check_collision s.finger_pos s.targets <;> simp <;> split_ifs <;> rfl

@[simp] lemma collisionStep_duration :
    (collisionStep hitSeed s).countdown_duration = s.countdown_duration := by
  unfold collisionStep
  cases check_collision s.finger_pos s.targets <;> simp <;> split_ifs <;> rfl

@[simp] lemma collisionStep_window_width :
    (collisionStep hitSeed s).window_width = s.window_width := by
  unfold collisionStep
  cases check_collision s.finger_pos s.targets <;> simp <;> split_ifs <;> rfl

@[simp] lemma collisionStep_window_height :
    (collisionStep hitSeed s).window_height = s.window_height := by
  unfold collisionStep
  cases check_collision s.finger_pos s.targets <;> simp <;> split_ifs <;> rfl

@[simp] lemma collisionStep_persistCalls :
    (collisionStep hitSeed s).persistCalls = s.persistCalls := by
  unfold collisionStep
  cases check_collision s.finger_pos s.targets <;> simp <;> split_ifs <;> rfl

lemma collisionStep_score :
    (collisionStep hitSeed s).score =
      (if (check_collision s.finger_pos s.targets).isSome
       then s.score + 1 else s.score) := by
  unfold collisionStep
  cases check_collision s.finger_pos s.targets <;> simp <;> split_ifs <;> rfl

@[simp] lemma drawPhase_score : (drawPhase t s).score = s.score := by
  unfold drawPhase; split_ifs <;> rfl

@[simp] lemma drawPhase_highScore : (drawPhase t s).highScore = s.highScore := by
  unfold drawPhase; split_ifs <;> rfl

@[simp] lemma drawPhase_paused : (drawPhase t s).paused = s.paused := by
  unfold drawPhase; split_ifs <;> rfl

@[simp] lemma drawPhase_game_over : (drawPhase t s).game_over = s.game_over := by
  unfold drawPhase; split_ifs <;> rfl

@[simp] lemma drawPhase_mode : (drawPhase t s).mode = s.mode := by
  unfold drawPhase; split_ifs <;> rfl

@[simp] lemma drawPhase_startTime : (drawPhase t s).startTime = s.startTime := by
  unfold drawPhase; split_ifs <;> rfl

@[simp] lemma drawPhase_duration :
    (drawPhase t s).countdown_duration = s.countdown_duration := by
  unfold drawPhase; split_ifs <;> rfl

@[simp] lemma drawPhase_targets : (drawPhase t s).targets = s.targets := by
  unfold drawPhase; split_ifs <;> rfl

@[simp] lemma drawPhase_window_width : (drawPhase t s).window_width = s.window_width := by
  unfold drawPhase; split_ifs <;> rfl

@[simp] lemma drawPhase_window_height :
    (drawPhase t s).window_height = s.window_height := by
  unfold drawPhase; split_ifs <;> rfl

@[simp] lemma drawPhase_persistCalls :
    (drawPhase t s).persistCalls = s.persistCalls := by
  unfold drawPhase; split_ifs <;> rfl

lemma drawPhase_time_left_countdown (hm : s.mode = Mode.countdown) :
    (drawPhase t s).time_left = remainingAt t s := by
  unfold drawPhase remainingAt; simp [hm]

lemma drawPhase_time_left_normal (hm : s.mode = Mode.normal) :
    (drawPhase t s).time_left = s.time_left := by
  unfold drawPhase; simp [hm]

@[simp] lemma keyPhase_score : (keyPhase key t s).score = s.score := by
  unfold keyPhase
  cases key with
  | none => rfl
  | some k => cases k <;> simp <;> split_ifs <;> rfl

@[simp] lemma keyPhase_highScore : (keyPhase key t s).highScore = s.highScore := by
  unfold keyPhase
  cases key with
  | none => rfl
  | some k => cases k <;> simp <;> split_ifs <;> rfl

@[simp] lemma keyPhase_game_over : (keyPhase key t s).game_over = s.game_over := by
  unfold keyPhase
  cases key with
  | none => rfl
  | some k => cases k <;> simp <;> split_ifs <;> rfl

@[simp] lemma keyPhase_mode : (keyPhase key t s).mode = s.mode := by
  unfold keyPhase
  cases key with
  | none => rfl
  | some k => cases k <;> simp <;> split_ifs <;> rfl

@[simp] lemma keyPhase_time_left : (keyPhase key t s).time_left = s.time_left := by
  unfold keyPhase
  cases key with
  | none => rfl
  | some k => cases k <;> simp <;> split_ifs <;> rfl

@[simp] lemma keyPhase_duration :
    (keyPhase key t s).countdown_duration = s.countdown_duration := by
  unfold keyPhase
  cases key with
  | none => rfl
  | some k => cases k <;> simp <;> split_ifs <;> rfl

@[simp] lemma keyPhase_targets : (keyPhase key t s).targets = s.targets := by
  unfold keyPhase
  cases key with
  | none => rfl
  | some k => cases k <;> simp <;> split_ifs <;> rfl

@[simp] lemma keyPhase_window_width : (keyPhase key t s).window_width = s.window_width := by
  unfold keyPhase
  cases key with
  | none => rfl
  | some k => cases k <;> simp <;> split_ifs <;> rfl

@[simp] lemma keyPhase_window_height :
    (keyPhase key t s).window_height = s.window_height := by
  unfold keyPhase
  cases key with
  | none => rfl
  | some k => cases k <;> simp <;> split_ifs <;> rfl

@[simp] lemma keyPhase_finger : (keyPhase key t s).finger_pos = s.finger_pos := by
  unfold keyPhase
  cases key with
  | none => rfl
  | some k => cases k <;> simp <;> split_ifs <;> rfl

@[simp] lemma keyPhase_persistCalls :
    (keyPhase key t s).persistCalls = s.persistCalls := by
  unfold keyPhase
  cases key with
  | none => rfl
  | some k => cases k <;> simp <;> split_ifs <;> rfl

lemma keyPhase_startTime_normal (hm : s.mode = Mode.normal) :
    (keyPhase key t s).startTime = s.startTime := by
  unfold keyPhase
  cases key with
  | none => rfl
  | some k => cases k <;> simp [hm] <;> split_ifs <;> simp_all

lemma logicPhase_not_running (h : ¬ (s.paused = false ∧ s.game_over = false)) :
    logicPhase detection hitSeed s = s := by
  unfold logicPhase; simp [h]

lemma logicPhase_running (h : s.paused = false ∧ s.game_over = false) :
    logicPhase detection hitSeed s =
      collisionStep hitSeed { expiryStep s with finger_pos := detection } := by
  unfold logicPhase; simp [h]

@[simp] lemma logicPhase_time_left :
    (logicPhase detection hitSeed s).time_left = s.time_left := by
  unfold logicPhase
  split_ifs with h
  · simp
  · rfl

@[simp] lemma logicPhase_startTime :
    (logicPhase detection hitSeed s).startTime = s.startTime := by
  unfold logicPhase
  split_ifs with h
  · simp
  · rfl

@[simp] lemma logicPhase_mode : (logicPhase detection hitSeed s).mode = s.mode := by
  unfold logicPhase
  split_ifs with h
  · simp
  · rfl

@[simp] lemma logicPhase_duration :
    (logicPhase detection hitSeed s).countdown_duration = s.countdown_duration := by
  unfold logicPhase
  split_ifs with h
  · simp
  · rfl

@[simp] lemma logicPhase_paused : (logicPhase detection hitSeed s).paused = s.paused := by
  unfold logicPhase
  split_ifs with h
  · simp
  · rfl

@[simp] lemma logicPhase_window_width :
    (logicPhase detection hitSeed s).window_width = s.window_width := by
  unfold logicPhase
  split_ifs with h
  · simp
  · rfl

@[simp] lemma logicPhase_window_height :
    (logicPhase detection hitSeed s).window_height = s.window_height := by
  unfold logicPhase
  split_ifs with h
  · simp
  · rfl

end PhaseLemmas

lemma hitTest_false_iff (p q : Pt) : hitTest p q = false ↔ ¬ EuclidLt30 p q := by
  rw [← hitTest_iff_euclid]
  cases h : hitTest p q <;> simp

lemma firstHit_eq_some_iff (p : Pt) :
    ∀ (ts : List Pt) (i : Nat),
      firstHit p ts = some i ↔
        ∃ hi : i < ts.length, hitTest p (ts.get ⟨i, hi⟩) = true ∧
          ∀ j : Nat, ∀ hj : j < ts.length, j < i → hitTest p (ts.get ⟨j, hj⟩) = false := by
  intro ts
  induction ts with
  | nil =>
    intro i
    simp [firstHit]
  | cons t ts ih =>
    intro i
    by_cases h : hitTest p t = true
    · constructor
      · intro heq
        have hfh : firstHit p (t :: ts) = some 0 := by simp [firstHit, h]
        have hi0 : i = 0 := (Option.some_inj.mp (hfh.symm.trans heq)).symm
        subst hi0
        exact ⟨Nat.succ_pos _, by simpa using h,
          fun j hj hj0 => absurd hj0 (Nat.not_lt_zero j)⟩
      · rintro ⟨hi, hhit, hmin⟩
        cases i with
        | zero => simp [firstHit, h]
        | succ n =>
          exfalso
          have h0 := hmin 0 (Nat.succ_pos _) (Nat.succ_pos n)
          simp only [List.get] at h0
          rw [h] at h0
          cases h0
    · have hf : hitTest p t = false := by simpa using h
      cases i with
      | zero =>
        constructor
        · intro hEq
          exfalso
          have : (firstHit p ts).map (fun i => i + 1) = some 0 := by
            simpa [firstHit, hf] using hEq
          obtain ⟨k, _, hk1⟩ := Option.map_eq_some'.mp this
          omega
        · rintro ⟨hi, hhit, _⟩
          exfalso
          simp only [List.get] at hhit
          rw [hf] at hhit
          cases hhit
      | succ n =>
        have hrw : firstHit p (t :: ts) = (firstHit p ts).map (fun i => i + 1) := by
          simp [firstHit, hf]
        rw [hrw]
        constructor
        · intro hEq
          obtain ⟨k, hk, hk1⟩ := Option.map_eq_some'.mp hEq
          have hkn : k = n := by omega
          rw [hkn] at hk
          obtain ⟨hk', hhit, hmin⟩ := (ih n).mp hk
          refine ⟨Nat.succ_lt_succ hk', by simpa using hhit, ?_⟩
          intro j hj hjn
          cases j with
          | zero => simpa using hf
          | succ m =>
            have := hmin m (Nat.lt_of_succ_lt_succ hj) (Nat.lt_of_succ_lt_succ hjn)
            simpa using this
        · rintro ⟨hi, hhit, hmin⟩
          apply Option.map_eq_some'.mpr
          refine ⟨n, (ih n).mpr ⟨Nat.lt_of_succ_lt_succ hi, by simpa using hhit, ?_⟩, rfl⟩
          intro m hm hmn
          have := hmin (m + 1) (Nat.succ_lt_succ hm) (Nat.succ_lt_succ hmn)
          simpa using this

/-- C5: collision resolution returns no collision for an absent pointer, and
otherwise the index of the first target (in index order, so lowest index wins
on overlaps) whose Euclidean distance from the pointer is strictly less than
30 pixels, or `none` when no target is that close; the resolver is a pure
function of the pointer and target list. -/
theorem C5_collision_resolver (finger : Option Pt) (ts : List Pt) :
    check_collision none ts = none ∧
    (∀ i : Nat, check_collision finger ts = some i ↔
      ∃ p, finger = some p ∧ ∃ hi : i < ts.length,
        EuclidLt30 p (ts.get ⟨i, hi⟩) ∧
        ∀ j : Nat, ∀ hj : j < ts.length, j < i → ¬ EuclidLt30 p (ts.get ⟨j, hj⟩)) := by
  refine ⟨rfl, ?_⟩
  intro i
  cases finger with
  | none => simp [check_collision]
  | some p =>
    have hcc : check_collision (some p) ts = firstHit p ts := rfl
    rw [hcc, firstHit_eq_some_iff]
    constructor
    · rintro ⟨hi, hhit, hmin⟩
      refine ⟨p, rfl, hi, (hitTest_iff_euclid _ _).mp hhit, ?_⟩
      intro j hj hji
      exact (hitTest_false_iff _ _).mp (hmin j hj hji)
    · rintro ⟨q, hq, hi, he, hmin⟩
      obtain rfl : p = q := Option.some_inj.mp hq
      refine ⟨hi, (hitTest_iff_euclid _ _).mpr he, ?_⟩
      intro j hj hji
      exact (hitTest_false_iff _ _).mpr (hmin j hj hji)

/-- C8 counterexample: a store file that is present, readable and valid JSON
but holds `high_score = -5` makes `load_high_score` return a negative value,
so "load returns a non-negative integer" fails as stated. -/
theorem C8_load_negative_cex :
    ¬ (0 ≤ load_high_score (StoreFile.json (some (-5)))) := by decide

/-- C8 amended: load returns 0 whenever the store file is absent or
unreadable/unparseable (and when the key is missing), and otherwise returns
exactly the stored value — whatever its sign; save is best-effort: a failed
write leaves the previous file state and no error escapes. -/
theorem C8_store_contract :
    load_high_score StoreFile.absent = 0 ∧
    load_high_score StoreFile.unreadable = 0 ∧
    load_high_score (StoreFile.json none) = 0 ∧
    (∀ v : Int, load_high_score (StoreFile.json (some v)) = v) ∧
    (∀ (hs : Int) (ok : Bool) (old : StoreFile),
      save_high_score hs ok old = if ok then StoreFile.json (some hs) else old) := by
  refine ⟨rfl, rfl, rfl, fun v => rfl, fun hs ok old => ?_⟩
  cases ok <;> rfl

lemma genTarget_bounds (w h sx sy : Int) :
    50 ≤ (genTarget w h sx sy).1 ∧ (genTarget w h sx sy).1 ≤ max (50 + 10) (w - 50) ∧
    50 ≤ (genTarget w h sx sy).2 ∧ (genTarget w h sx sy).2 ≤ max (50 + 10) (h - 50) := by
  have hmw : (0 : Int) < max (50 + 10) (w - 50) + 1 - 50 := by
    have := le_max_left (50 + 10 : Int) (w - 50); omega
  have hmh : (0 : Int) < max (50 + 10) (h - 50) + 1 - 50 := by
    have := le_max_left (50 + 10 : Int) (h - 50); omega
  have h1 := Int.emod_nonneg sx (ne_of_gt hmw)
  have h2 := Int.emod_lt_of_pos sx hmw
  have h3 := Int.emod_nonneg sy (ne_of_gt hmh)
  have h4 := Int.emod_lt_of_pos sy hmh
  simp only [genTarget]
  exact ⟨by omega, by omega, by omega, by omega⟩

/-- C10: target generation is total: for every window size, including
dimensions below `2 * margin = 100`, `generate_random_target` succeeds (the
upper bound of each random range is clamped to at least `margin + 10 = 60`,
so the range `[50, upper]` is never empty), and both coordinates are at
least 50 — hence a generated target lies outside the visible window whenever
a window dimension is below 50 pixels. -/
theorem C10_generate_total (w h sx sy : Int) :
    ∃ x y : Int, generate_random_target w h sx sy = Except.ok (x, y) ∧
      50 ≤ x ∧ 50 ≤ y ∧ x ≤ max (50 + 10) (w - 50) ∧ y ≤ max (50 + 10) (h - 50) ∧
      50 + 10 ≤ max (50 + 10) (w - 50) ∧
      (w < 50 → w < x) ∧ (h < 50 → h < y) := by
  obtain ⟨hx1, hx2, hy1, hy2⟩ := genTarget_bounds w h sx sy
  refine ⟨(genTarget w h sx sy).1, (genTarget w h sx sy).2, ?_, hx1, hy1, hx2, hy2,
    le_max_left _ _, fun hw => by omega, fun hh => by omega⟩
  rw [generate_random_target_eq_ok]

/-- C10 witness: on a 40-by-40 window the generator still succeeds and the
generated target lies outside the visible window. -/
theorem C10_generate_total_w :
    ∃ x y : Int, generate_random_target 40 40 0 0 = Except.ok (x, y) ∧
      40 < x ∧ 40 < y := by
  obtain ⟨x, y, hok, hx, hy, hxu, hyu, hcl, hw, hh⟩ := C10_generate_total 40 40 0 0
  exact ⟨x, y, hok, hw (by norm_num), hh (by norm_num)⟩

/-- A frame input with no window change, no detection, no key press. -/
def inpNil : FrameInput :=
  { rect := none, detection := none, reseed := fun _ => (0, 0), hitSeed := (0, 0),
    nowDraw := 0, key := none, nowKey := 0 }

/-- A concrete countdown session start: one target, no stored high score,
640x480 camera, clock origin 0, all random seeds 0 (so the target is at
(50, 50)). -/
def exInit : GameState :=
  initState Mode.countdown 1 StoreFile.absent 640 480 0 (fun _ => (0, 0))

/-- The concrete session after the game-over flag is raised. -/
def exOver : GameState := { exInit with game_over := true }

lemma frameStep_score (inp : FrameInput) (s : GameState) :
    (frameStep inp s).score =
      (if s.paused = false ∧ s.game_over = false ∧
          (check_collision inp.detection
            (reconcileBounds inp.rect inp.reseed s).targets).isSome = true
       then s.score + 1 else s.score) := by
  unfold frameStep
  rw [keyPhase_score, drawPhase_score]
  set s1 := reconcileBounds inp.rect inp.reseed s with hs1
  by_cases hrun : s1.paused = false ∧ s1.game_over = false
  · rw [logicPhase_running _ _ _ hrun, collisionStep_score]
    have hp : s.paused = false := by rw [← reconcileBounds_paused inp.rect inp.reseed s]; exact hrun.1
    have hov : s.game_over = false := by
      rw [← reconcileBounds_game_over inp.rect inp.reseed s]; exact hrun.2
    have htg : ({ expiryStep s1 with finger_pos := inp.detection }).targets = s1.targets := by
      simp
    have hfp : ({ expiryStep s1 with finger_pos := inp.detection }).finger_pos
        = inp.detection := rfl
    have hsc : ({ expiryStep s1 with finger_pos := inp.detection }).score = s.score := by
      simp [hs1]
    rw [hfp, htg, hsc]
    by_cases hcol : (check_collision inp.detection s1.targets).isSome = true
    · simp [hcol, hp, hov]
    · simp [hcol, hp, hov]
  · rw [logicPhase_not_running _ _ _ hrun]
    have hno : ¬ (s.paused = false ∧ s.game_over = false) := by
      intro hc
      exact hrun ⟨by simpa [hs1] using hc.1, by simpa [hs1] using hc.2⟩
    have hs1s : s1.score = s.score := by simp [hs1]
    rw [hs1s]
    split_ifs with hcond
    · exact absurd ⟨hcond.1, hcond.2.1⟩ hno
    · rfl

lemma frameStep_game_over_iff (inp : FrameInput) (s : GameState)
    (hm : s.mode = Mode.countdown) :
    ((frameStep inp s).game_over = true ↔
      (s.game_over = true ∨ (s.paused = false ∧ s.time_left ≤ 0))) := by
  unfold frameStep
  rw [keyPhase_game_over, drawPhase_game_over]
  set s1 := reconcileBounds inp.rect inp.reseed s with hs1
  by_cases hrun : s1.paused = false ∧ s1.game_over = false
  · rw [logicPhase_running _ _ _ hrun, collisionStep_game_over]
    have he : ({ expiryStep s1 with finger_pos := inp.detection }).game_over
        = (expiryStep s1).game_over := rfl
    rw [he]
    have hp : s.paused = false := by rw [← reconcileBounds_paused inp.rect inp.reseed s]; exact hrun.1
    have hov : s.game_over = false := by
      rw [← reconcileBounds_game_over inp.rect inp.reseed s]; exact hrun.2
    rw [expiryStep_game_over]
    have hm1 : s1.mode = Mode.countdown := by simp [hs1, hm]
    have htl1 : s1.time_left = s.time_left := by simp [hs1]
    have hov1 : s1.game_over = false := hrun.2
    by_cases htl : s.time_left ≤ 0
    · simp [hov1, hm1, htl1, htl, hp, hov]
    · simp [hov1, hm1, htl1, htl, hp, hov]
  · rw [logicPhase_not_running _ _ _ hrun]
    have hgo : s1.game_over = s.game_over := by simp [hs1]
    rw [hgo]
    have hno : ¬ (s.paused = false ∧ s.game_over = false) := by
      intro hc
      exact hrun ⟨by simpa [hs1] using hc.1, by simpa [hs1] using hc.2⟩
    cases hov : s.game_over with
    | true => simp
    | false =>
      cases hp : s.paused with
      | false => exact absurd ⟨hp, hov⟩ hno
      | true => simp

lemma frameStep_time_left (inp : FrameInput) (s : GameState)
    (hm : s.mode = Mode.countdown) :
    (frameStep inp s).time_left = remainingAt inp.nowDraw s := by
  unfold frameStep
  rw [keyPhase_time_left]
  set s3 := logicPhase inp.detection inp.hitSeed (reconcileBounds inp.rect inp.reseed s)
    with hs3
  have hm3 : s3.mode = Mode.countdown := by simp [hs3, hm]
  rw [drawPhase_time_left_countdown _ _ hm3]
  unfold remainingAt
  simp [hs3]

/-- C4: `Over` is terminal: a frame advanced from a game-over state leaves
the score, the high score and the target list unchanged (no collision
scoring, no respawn), apart from the bounds-reconciliation pass which runs
on every frame; the state stays game-over. -/
theorem C4_over_terminal (inp : FrameInput) (s : GameState) (h : s.game_over = true) :
    (frameStep inp s).score = s.score ∧
    (frameStep inp s).highScore = s.highScore ∧
    (frameStep inp s).targets = (reconcileBounds inp.rect inp.reseed s).targets ∧
    (frameStep inp s).game_over = true ∧
    (inp.rect = none → (frameStep inp s).targets = s.targets) := by
  unfold frameStep
  set s1 := reconcileBounds inp.rect inp.reseed s with hs1
  have hno : ¬ (s1.paused = false ∧ s1.game_over = false) := by
    intro hc
    rw [hs1, reconcileBounds_game_over] at hc
    rw [h] at hc
    cases hc.2
  rw [logicPhase_not_running _ _ _ hno]
  refine ⟨by simp [hs1], by simp [hs1], by simp, ?_, ?_⟩
  · simp [hs1, h]
  · intro hrect
    simp [hs1, hrect]

/-- C4 witness: a concrete game-over session advanced by one inert frame. -/
theorem C4_over_terminal_w :
    (frameStep inpNil exOver).score = exOver.score ∧
    (frameStep inpNil exOver).highScore = exOver.highScore ∧
    (frameStep inpNil exOver).targets
      = (reconcileBounds inpNil.rect inpNil.reseed exOver).targets ∧
    (frameStep inpNil exOver).game_over = true ∧
    (inpNil.rect = none → (frameStep inpNil exOver).targets = exOver.targets) :=
  C4_over_terminal inpNil exOver rfl

/-- C7: the score starts at 0, is a natural number, changes in a frame only
by the collision rule — exactly +1 when the session is running and the
resolver reports a hit against the reconciled target list, otherwise
unchanged — and is therefore monotonically non-decreasing over the session. -/
theorem C7_score_invariant :
    (∀ (mode : Mode) (n : Nat) (file : StoreFile) (camW camH : Int) (t0 : Int)
        (seeds : Nat → Int × Int),
      (initState mode n file camW camH t0 seeds).score = 0) ∧
    (∀ (inp : FrameInput) (s : GameState),
      (frameStep inp s).score =
        (if s.paused = false ∧ s.game_over = false ∧
            (check_collision inp.detection
              (reconcileBounds inp.rect inp.reseed s).targets).isSome = true
         then s.score + 1 else s.score)) ∧
    (∀ (inp : FrameInput) (s : GameState), s.score ≤ (frameStep inp s).score) := by
  refine ⟨fun _ _ _ _ _ _ _ => rfl, frameStep_score, ?_⟩
  intro inp s
  rw [frameStep_score]
  split_ifs <;> omega

/-- C9: in Countdown mode the expiry check consults the `time_left` value
stored by the previous frame's drawing phase: `time_left` starts at the full
60-second budget, is modified only by the drawing phase (which runs after
the game-logic step and recomputes it from the wall clock), the very first
frame never transitions to Over, a frame transitions to Over exactly when
the session was already over or was running with the previously stored
remaining time at 0 or below, and after any frame the stored value is the
one recomputed at that frame's drawing instant. -/
theorem C9_expiry_uses_previous_frame :
    (∀ (n : Nat) (file : StoreFile) (camW camH : Int) (t0 : Int)
        (seeds : Nat → Int × Int),
      (initState Mode.countdown n file camW camH t0 seeds).time_left = 60 ∧
      (initState Mode.countdown n file camW camH t0 seeds).countdown_duration = 60) ∧
    (∀ (rect : Option (Int × Int)) (reseed : Nat → Int × Int) (detection : Option Pt)
        (hitSeed : Int × Int) (key : Option GameKey) (t : Int) (s : GameState),
      (reconcileBounds rect reseed s).time_left = s.time_left ∧
      (logicPhase detection hitSeed s).time_left = s.time_left ∧
      (keyPhase key t s).time_left = s.time_left ∧
      (s.mode = Mode.countdown → (drawPhase t s).time_left = remainingAt t s)) ∧
    (∀ (inp : FrameInput) (n : Nat) (file : StoreFile) (camW camH : Int) (t0 : Int)
        (seeds : Nat → Int × Int),
      (frameStep inp (initState Mode.countdown n file camW camH t0 seeds)).game_over
        = false) ∧
    (∀ (inp : FrameInput) (s : GameState), s.mode = Mode.countdown →
      ((frameStep inp s).game_over = true ↔
        (s.game_over = true ∨ (s.paused = false ∧ s.time_left ≤ 0)))) ∧
    (∀ (inp : FrameInput) (s : GameState), s.mode = Mode.countdown →
      (frameStep inp s).time_left = remainingAt inp.nowDraw s) := by
  refine ⟨fun _ _ _ _ _ _ => ⟨rfl, rfl⟩, ?_, ?_, frameStep_game_over_iff, frameStep_time_left⟩
  · intro rect reseed detection hitSeed key t s
    exact ⟨reconcileBounds_time_left rect reseed s, logicPhase_time_left detection hitSeed s,
      keyPhase_time_left key t s, fun hm => drawPhase_time_left_countdown t s hm⟩
  · intro inp n file camW camH t0 seeds
    have hiff := frameStep_game_over_iff inp (initState Mode.countdown n file camW camH t0 seeds) rfl
    cases hov : (frameStep inp (initState Mode.countdown n file camW camH t0 seeds)).game_over with
    | false => rfl
    | true =>
      exfalso
      have := hiff.mp hov
      rcases this with hcontra | ⟨_, htl⟩
      · cases hcontra
      · have : ¬ ((60 : Int) ≤ 0) := by norm_num
        exact this htl

/-- C9 witness: a countdown session whose stored remaining time is 0
transitions to Over on the next frame, and the first frame from a fresh
session does not. -/
theorem C9_expiry_uses_previous_frame_w :
    (frameStep inpNil { exInit with time_left := 0 }).game_over = true ∧
    (frameStep inpNil exInit).game_over = false := by
  constructor
  · exact (C9_expiry_uses_previous_frame.2.2.2.1 inpNil { exInit with time_left := 0 }
      rfl).mpr (Or.inr ⟨rfl, le_refl 0⟩)
  · exact C9_expiry_uses_previous_frame.2.2.1 inpNil 1 StoreFile.absent 640 480 0
      (fun _ => (0, 0))

/-- The per-axis position invariant of the claim: `margin <= c` and
`c <= dim - margin`, relaxed to the clamped minimum window `margin + 10`
when the dimension is too small (this is `max (margin + 10) (dim - margin)`,
the upper end of the source's `randint` range). -/
def coordOK (dim c : Int) : Prop :=
  50 ≤ c ∧ c ≤ max (50 + 10) (dim - 50)

instance (dim c : Int) : Decidable (coordOK dim c) := by
  unfold coordOK; infer_instance

/-- Every target of the state satisfies the position invariant against the
state's current window bounds. -/
def targetsOK (s : GameState) : Prop :=
  ∀ t ∈ s.targets, coordOK s.window_width t.1 ∧ coordOK s.window_height t.2

lemma genTarget_coordOK (w h sx sy : Int) :
    coordOK w (genTarget w h sx sy).1 ∧ coordOK h (genTarget w h sx sy).2 := by
  obtain ⟨h1, h2, h3, h4⟩ := genTarget_bounds w h sx sy
  exact ⟨⟨h1, h2⟩, ⟨h3, h4⟩⟩

lemma reconcileTargets_mem (w h : Int) (reseed : Nat → Int × Int) :
    ∀ (ts : List Pt) (i : Nat) (t' : Pt), t' ∈ reconcileTargets w h reseed i ts →
      (∃ sx sy : Int, t' = genTarget w h sx sy) ∨
      (t' ∈ ts ∧ t'.1 ≤ w - 50 ∧ t'.2 ≤ h - 50) := by
  intro ts
  induction ts with
  | nil => intro i t' h'; cases h'
  | cons t ts ih =>
    intro i t' h'
    rw [reconcileTargets] at h'
    rcases List.mem_cons.mp h' with hhead | htail
    · unfold reconcileTarget at hhead
      split_ifs at hhead with hc
      · exact Or.inl ⟨(reseed i).1, (reseed i).2, hhead⟩
      · push_neg at hc
        exact Or.inr ⟨hhead ▸ List.mem_cons_self t ts, hhead ▸ hc.1, hhead ▸ hc.2⟩
    · rcases ih (i + 1) t' htail with hgen | ⟨hmem, hb1, hb2⟩
      · exact Or.inl hgen
      · exact Or.inr ⟨List.mem_cons_of_mem t hmem, hb1, hb2⟩

lemma targetsOK_reconcileBounds (rect : Option (Int × Int)) (reseed : Nat → Int × Int)
    (s : GameState) (h : targetsOK s) : targetsOK (reconcileBounds rect reseed s) := by
  unfold reconcileBounds
  cases rect with
  | none => exact h
  | some wh =>
    dsimp only
    split_ifs with hpos heq
    · exact h
    · intro t' ht'
      have ht2 : t' ∈ reconcileTargets wh.1 wh.2 reseed 0 s.targets := ht'
      rcases reconcileTargets_mem wh.1 wh.2 reseed s.targets 0 t' ht2
        with ⟨sx, sy, hgen⟩ | ⟨hmem, hb1, hb2⟩
      · subst hgen
        exact genTarget_coordOK wh.1 wh.2 sx sy
      · have hold := h t' hmem
        exact ⟨⟨hold.1.1, le_trans hb1 (le_max_right _ _)⟩,
               ⟨hold.2.1, le_trans hb2 (le_max_right _ _)⟩⟩
    · exact h

lemma targetsOK_collisionStep (hitSeed : Int × Int) (s : GameState) (h : targetsOK s) :
    targetsOK (collisionStep hitSeed s) := by
  unfold collisionStep
  cases hc : check_collision s.finger_pos s.targets with
  | none => exact h
  | some i =>
    have hbase : ∀ t' ∈ s.targets.set i
        (genTarget s.window_width s.window_height hitSeed.1 hitSeed.2),
        coordOK s.window_width t'.1 ∧ coordOK s.window_height t'.2 := by
      intro t' ht'
      rcases List.mem_or_eq_of_mem_set ht' with hmem | hgen
      · exact h t' hmem
      · subst hgen
        exact genTarget_coordOK s.window_width s.window_height hitSeed.1 hitSeed.2
    dsimp only
    split_ifs with hhi
    · intro t' ht'
      exact hbase t' ht'
    · intro t' ht'
      exact hbase t' ht'

lemma targetsOK_logicPhase (detection : Option Pt) (hitSeed : Int × Int)
    (s : GameState) (h : targetsOK s) : targetsOK (logicPhase detection hitSeed s) := by
  unfold logicPhase
  split_ifs with hrun
  · have hmid : targetsOK { expiryStep s with finger_pos := detection } := by
      intro t' ht'
      simp only [expiryStep_targets] at ht'
      have := h t' ht'
      simpa using this
    exact targetsOK_collisionStep hitSeed _ hmid
  · exact h

lemma targetsOK_frameStep (inp : FrameInput) (s : GameState) (h : targetsOK s) :
    targetsOK (frameStep inp s) := by
  unfold frameStep
  have h1 := targetsOK_reconcileBounds inp.rect inp.reseed s h
  have h2 := targetsOK_logicPhase inp.detection inp.hitSeed _ h1
  intro t' ht'
  simp only [keyPhase_targets, drawPhase_targets] at ht'
  have := h2 t' ht'
  simpa using this

lemma targetsOK_initState (mode : Mode) (n : Nat) (file : StoreFile) (camW camH : Int)
    (t0 : Int) (seeds : Nat → Int × Int) :
    targetsOK (initState mode n file camW camH t0 seeds) := by
  intro t' ht'
  simp only [initState, initTargets, List.mem_map, List.mem_range] at ht'
  obtain ⟨i, _, hgen⟩ := ht'
  subst hgen
  exact genTarget_coordOK camW camH (seeds i).1 (seeds i).2

/-- C6: in every reachable state of a session every target position lies in
`[margin, window - margin]` per axis, relaxed to the clamped minimum window
(upper bound `max (margin + 10) (window - margin)`) when the bounds are too
small; moreover any target that violates the upper margins after a bounds
change is regenerated by the reconciliation pass. -/
theorem C6_target_invariant :
    (∀ (mode : Mode) (n : Nat) (file : StoreFile) (camW camH : Int) (t0 : Int)
        (seeds : Nat → Int × Int) (s : GameState),
      ReachableFrom (initState mode n file camW camH t0 seeds) s →
      ∀ t ∈ s.targets, coordOK s.window_width t.1 ∧ coordOK s.window_height t.2) ∧
    (∀ (w h : Int) (seed : Int × Int) (t : Pt),
      (w - 50 < t.1 ∨ h - 50 < t.2) →
      reconcileTarget w h seed t = genTarget w h seed.1 seed.2) := by
  constructor
  · intro mode n file camW camH t0 seeds s hreach
    induction hreach with
    | base => exact targetsOK_initState mode n file camW camH t0 seeds
    | step inp s' _ ih => exact targetsOK_frameStep inp s' ih
  · intro w h seed t hviol
    unfold reconcileTarget
    simp [hviol]

/-- C6 witness: the single target of the concrete fresh session satisfies
the invariant. -/
theorem C6_target_invariant_w :
    coordOK exInit.window_width ((50 : Int), (50 : Int)).1 ∧
    coordOK exInit.window_height ((50 : Int), (50 : Int)).2 :=
  C6_target_invariant.1 Mode.countdown 1 StoreFile.absent 640 480 0 (fun _ => (0, 0))
    exInit ReachableFrom.base ((50 : Int), (50 : Int)) (by decide)

lemma scoreInv_expiryStep (s : GameState) (h : (s.score : Int) ≤ s.highScore) :
    ((expiryStep s).score : Int) ≤ (expiryStep s).highScore := by
  rw [expiryStep_score, expiryStep_highScore]
  split_ifs with hc
  · exact le_refl _
  · exact h

lemma scoreInv_collisionStep (seed : Int × Int) (s : GameState)
    (h : (s.score : Int) ≤ s.highScore) :
    ((collisionStep seed s).score : Int) ≤ (collisionStep seed s).highScore := by
  unfold collisionStep
  cases check_collision s.finger_pos s.targets with
  | none => exact h
  | some i =>
    dsimp only
    split_ifs with hc
    · exact le_refl _
    · exact not_lt.mp hc

lemma scoreInv_frameStep (inp : FrameInput) (s : GameState)
    (h : (s.score : Int) ≤ s.highScore) :
    ((frameStep inp s).score : Int) ≤ (frameStep inp s).highScore := by
  unfold frameStep
  rw [keyPhase_score, keyPhase_highScore, drawPhase_score, drawPhase_highScore]
  set s1 := reconcileBounds inp.rect inp.reseed s with hs1
  have h1 : (s1.score : Int) ≤ s1.highScore := by
    rw [hs1, reconcileBounds_score, reconcileBounds_highScore]; exact h
  unfold logicPhase
  split_ifs with hrun
  · have h2 : (({ expiryStep s1 with finger_pos := inp.detection }).score : Int)
        ≤ ({ expiryStep s1 with finger_pos := inp.detection }).highScore :=
      scoreInv_expiryStep s1 h1
    exact scoreInv_collisionStep inp.hitSeed _ h2
  · exact h1

/-- C3 (amended): on the advance step where countdown expiry is detected the
session transitions to Over, and if `Score > HighScore` at that moment then
`HighScore` is set to `Score` and a persist call is recorded, while otherwise
no persist call happens; but since every collision already syncs the
in-memory high score, `Score` never exceeds `HighScore` in any reachable
state of a session whose loaded high score is non-negative — so the
game-over transition never actually records a persist call (persistence for
a record session happens at process exit instead). -/
theorem C3_expiry_highscore :
    (∀ s : GameState, s.mode = Mode.countdown → s.time_left ≤ 0 →
      (expiryStep s).game_over = true ∧
      ((s.score : Int) > s.highScore →
        (expiryStep s).highScore = (s.score : Int) ∧
        (expiryStep s).persistCalls = s.persistCalls + 1) ∧
      ((s.score : Int) ≤ s.highScore →
        (expiryStep s).highScore = s.highScore ∧
        (expiryStep s).persistCalls = s.persistCalls)) ∧
    (∀ (mode : Mode) (n : Nat) (file : StoreFile) (camW camH : Int) (t0 : Int)
        (seeds : Nat → Int × Int) (s : GameState),
      0 ≤ load_high_score file →
      ReachableFrom (initState mode n file camW camH t0 seeds) s →
      (s.score : Int) ≤ s.highScore) := by
  constructor
  · intro s hm htl
    refine ⟨?_, ?_, ?_⟩
    · rw [expiryStep_game_over]
      simp [hm, htl]
    · intro hgt
      rw [expiryStep_highScore, expiryStep_persistCalls]
      rw [if_pos ⟨hm, htl, hgt⟩, if_pos ⟨hm, htl, hgt⟩]
      exact ⟨rfl, rfl⟩
    · intro hle
      rw [expiryStep_highScore, expiryStep_persistCalls]
      have hno : ¬ (s.mode = Mode.countdown ∧ s.time_left ≤ 0 ∧ (s.score : Int) > s.highScore) := by
        intro hc
        exact absurd hle (not_le.mpr hc.2.2)
      rw [if_neg hno, if_neg hno]
      exact ⟨rfl, rfl⟩
  · intro mode n file camW camH t0 seeds s h0 hreach
    induction hreach with
    | base =>
      have : (initState mode n file camW camH t0 seeds).score = 0 := rfl
      rw [this]
      exact h0
    | step inp s' _ ih => exact scoreInv_frameStep inp s' ih

/-- A concrete expiring state with `Score > HighScore` (only constructible
by hand: it is unreachable when the loaded high score is non-negative). -/
def sExp3 : GameState := { exInit with time_left := 0, score := 1, highScore := 0 }

/-- C3 witness: the expiry step on the hand-built state raises the game-over
flag, syncs the high score and records the persist call. -/
theorem C3_expiry_highscore_w :
    (expiryStep sExp3).game_over = true ∧
    (expiryStep sExp3).highScore = (sExp3.score : Int) ∧
    (expiryStep sExp3).persistCalls = sExp3.persistCalls + 1 := by
  have h := C3_expiry_highscore.1 sExp3 rfl (le_refl 0)
  have hgt : (sExp3.score : Int) > sExp3.highScore := by decide
  exact ⟨h.1, (h.2.1 hgt).1, (h.2.1 hgt).2⟩

/-- A countdown session starting with stored high score 1. -/
def c3Init : GameState :=
  initState Mode.countdown 1 (StoreFile.json (some 1)) 640 480 0 (fun _ => (0, 0))

/-- A frame whose detection touches the target at (50, 50) at clock `t`. -/
def hitInp (t : Int) : FrameInput :=
  { rect := none, detection := some (50, 50), reseed := fun _ => (0, 0),
    hitSeed := (0, 0), nowDraw := t, key := none, nowKey := t }

/-- An inert frame at clock `t`. -/
def tickInp (t : Int) : FrameInput :=
  { rect := none, detection := none, reseed := fun _ => (0, 0),
    hitSeed := (0, 0), nowDraw := t, key := none, nowKey := t }

/-- The session after two scoring frames, a frame where the drawn remaining
time reaches 0, and the frame that detects expiry. -/
def c3Final : GameState :=
  frameStep (tickInp 61) (frameStep (tickInp 60) (frameStep (hitInp 2)
    (frameStep (hitInp 1) c3Init)))

/-- C3 counterexample: a reachable countdown session whose final score 2
exceeds the loaded high score 1 reaches the game-over transition without any
persist call being recorded (the in-memory sync at collision time makes the
`Score > HighScore` test at expiry false). -/
theorem C3_no_persist_cex :
    load_high_score (StoreFile.json (some 1)) = 1 ∧
    c3Final.score = 2 ∧ (1 : Int) < 2 ∧
    c3Final.game_over = true ∧
    c3Final.persistCalls = 0 ∧
    ReachableFrom c3Init c3Final := by
  refine ⟨rfl, by decide, by norm_num, by decide, by decide, ?_⟩
  exact ReachableFrom.step _ _ (ReachableFrom.step _ _ (ReachableFrom.step _ _
    (ReachableFrom.step _ _ ReachableFrom.base)))

/-- C2 (amended): pausing does not freeze the session clock.  In Normal mode
no pause compensation exists at all — `start_time` is never modified, so the
displayed elapsed time always includes paused intervals.  In Countdown mode
the drawing phase keeps recomputing `time_left` from the wall clock during
paused frames, and the resume adjustment resets `start_time` so that the
remaining time immediately after resume equals the value stored at the last
recomputation — not the value from before the pause — so the paused interval
is charged against the countdown. -/
theorem C2_pause_behavior :
    (∀ (inp : FrameInput) (s : GameState), s.mode = Mode.normal →
      (frameStep inp s).startTime = s.startTime) ∧
    (∀ (t : Int) (s : GameState), s.mode = Mode.countdown →
      (drawPhase t s).time_left = remainingAt t s) ∧
    (∀ (t : Int) (s : GameState), s.mode = Mode.countdown → s.paused = true →
      s.game_over = false → 0 ≤ s.time_left →
      (keyPhase (some GameKey.space) t s).paused = false ∧
      remainingAt t (keyPhase (some GameKey.space) t s) = s.time_left) := by
  refine ⟨?_, drawPhase_time_left_countdown, ?_⟩
  · intro inp s hm
    unfold frameStep
    set s3 := drawPhase inp.nowDraw
      (logicPhase inp.detection inp.hitSeed (reconcileBounds inp.rect inp.reseed s))
      with hs3
    have hm3 : s3.mode = Mode.normal := by simp [hs3, hm]
    rw [keyPhase_startTime_normal _ _ _ hm3]
    simp [hs3]
  · intro t s hm hp hov hL
    unfold keyPhase
    dsimp only
    rw [if_pos hov, if_neg (by simp [hp]), if_pos hm]
    refine ⟨rfl, ?_⟩
    unfold remainingAt
    dsimp only
    have harith : s.countdown_duration -
        (t - (s.startTime + (t - s.startTime - (s.countdown_duration - s.time_left))))
        = s.time_left := by ring
    rw [harith]
    exact max_eq_right hL

/-- A concrete countdown session paused with 40 ticks left on the clock. -/
def sPausedEx : GameState := { exInit with paused := true, time_left := 40 }

/-- C2 witness: resuming the concrete paused session makes the remaining
time equal the stored `time_left` (the last drawn value), here 40. -/
theorem C2_pause_behavior_w :
    (keyPhase (some GameKey.space) 30 sPausedEx).paused = false ∧
    remainingAt 30 (keyPhase (some GameKey.space) 30 sPausedEx) = sPausedEx.time_left :=
  C2_pause_behavior.2.2 30 sPausedEx rfl rfl rfl (by decide)

/-- A frame that presses space (pausing) at clock 10. -/
def pauseInp : FrameInput :=
  { rect := none, detection := none, reseed := fun _ => (0, 0), hitSeed := (0, 0),
    nowDraw := 10, key := some GameKey.space, nowKey := 10 }

/-- A frame that presses space again (resuming) at clock 30. -/
def resumeInp : FrameInput :=
  { rect := none, detection := none, reseed := fun _ => (0, 0), hitSeed := (0, 0),
    nowDraw := 30, key := some GameKey.space, nowKey := 30 }

/-- C2 counterexample: pause a fresh countdown session at clock 10 (50 ticks
remain) and resume at clock 30 (a 20-tick paused delay): immediately after
resume the remaining time is 30, not the pre-pause 50 — the paused interval
was charged against the session clock. -/
theorem C2_pause_not_frozen_cex :
    (frameStep pauseInp exInit).paused = true ∧
    (frameStep pauseInp exInit).time_left = 50 ∧
    (frameStep resumeInp (frameStep pauseInp exInit)).paused = false ∧
    (frameStep resumeInp (frameStep pauseInp exInit)).time_left = 30 ∧
    remainingAt 30 (frameStep resumeInp (frameStep pauseInp exInit)) = 30 ∧
    ¬ (remainingAt 30 (frameStep resumeInp (frameStep pauseInp exInit))
        = (frameStep pauseInp exInit).time_left) := by decide

/-- C1: evaluation of the code at the claim's failing input.  Second frame:
the stored remaining time is 0 while the session is running and the pointer
sits exactly on the target, so the expiry check raises the game-over flag —
but the running-only block was entered before that flag was set and has no
early exit, so hand detection and collision resolution still run in that
same frame and the score increments from 0 to 1, contradicting the claim
that no collision is scored in the expiry frame. -/
theorem C1_expiry_frame_scores :
    (frameStep (tickInp 60) exInit).time_left = 0 ∧
    (frameStep (tickInp 60) exInit).score = 0 ∧
    (frameStep (tickInp 60) exInit).game_over = false ∧
    (frameStep (tickInp 60) exInit).paused = false ∧
    (frameStep (hitInp 61) (frameStep (tickInp 60) exInit)).game_over = true ∧
    (frameStep (hitInp 61) (frameStep (tickInp 60) exInit)).score = 1 := by decide
